import Mathlib

/-!
Verification of the Avalanche dataset-wrapping layer (tutorial notebook
`notebooks/how-tos/avalanchedataset/creating-avalanchedatasets.ipynb`).
The library classes themselves (`AvalancheDataset`, `AvalancheTensorDataset`,
`AvalancheSubset`, `AvalancheConcatDataset`) are not part of the sources at
hand, so every operation below is modelled from the specification of the
indirection layer (IndexedSource / LabeledView / TensorView / SubsetView /
ConcatView) and then proved against that model.
-/

namespace Avalanche

/-- Modelled from the spec: the error taxonomy of §7 — `ConfigurationError`
raised at construction time for mismatched lengths / invalid label
specification, `IndexError` for out-of-range indices. -/
inductive ViewError where
  | indexError
  | configurationError
deriving DecidableEq, Repr

deriving instance DecidableEq for Except

/-- Modelled from the spec: the `IndexedSource` capability contract —
"something with a length and indexed random access".  `getItem` is the
conceptual access map, meaningful on `[0, length)`. -/
structure IndexedSource (α : Type) where
  length : Nat
  getItem : Nat → α

/-- Checked indexed access: a query index outside `[0, length)` fails with
`IndexError` at access time (spec §7). -/
def IndexedSource.get (s : IndexedSource α) (i : Nat) : Except ViewError α :=
  if i < s.length then .ok (s.getItem i) else .error .indexError

/-- Modelled from the spec: `LabeledView` with the default label source — a
constant zero appended to every retrieved item (spec §4.1). -/
def labeledDefault (src : IndexedSource α) : IndexedSource (α × Nat) :=
  ⟨src.length, fun i => (src.getItem i, 0)⟩

/-- Modelled from the spec: `LabeledView` construction (spec §4.1).  With no
labels given, the default constant-zero label is used; with an explicit label
sequence, its length must equal the source length, else the construction
fails with `ConfigurationError`. -/
def LabeledView.mk? (src : IndexedSource α) (labels : Option (List Nat)) :
    Except ViewError (IndexedSource (α × Nat)) :=
  match labels with
  | none => .ok (labeledDefault src)
  | some ls =>
      if ls.length = src.length then
        .ok ⟨src.length, fun i => (src.getItem i, ls.getD i 0)⟩
      else
        .error .configurationError

/-- The label appended at index `i` for a given (optional) explicit label
sequence: `labels[i]` when a sequence is given, the constant zero default
otherwise. -/
def labelAt (labels : Option (List Nat)) (i : Nat) : Nat :=
  match labels with
  | none => 0
  | some ls => ls.getD i 0

/-- Modelled from the spec: `SubsetView` construction (spec §4.3).  Every
value of `idxs` must satisfy `0 ≤ value < src.length`, else the construction
fails with `IndexError` (fail fast, before any `get`).  The view re-indexes:
its length is `idxs.length` and its item `i` is the source item `idxs[i]`. -/
def SubsetView.mk? (src : IndexedSource α) (idxs : List Int) :
    Except ViewError (IndexedSource α) :=
  if ∀ j ∈ idxs, 0 ≤ j ∧ j < (src.length : Int) then
    .ok ⟨idxs.length, fun i => src.getItem (idxs.getD i 0).toNat⟩
  else
    .error .indexError

/-- Modelled from the spec: resolution of a global concatenation index to a
constituent source and local offset — index `i` belongs to the first source
whose cumulative length exceeds `i` (half-open boundary intervals,
spec §4.4). -/
def concatGetItem [Inhabited α] : List (IndexedSource α) → Nat → α
  | [], _ => default
  | s :: rest, i =>
      if i < s.length then s.getItem i else concatGetItem rest (i - s.length)

/-- Total length of a list of sources: the sum of constituent lengths. -/
def sumLengths (srcs : List (IndexedSource α)) : Nat :=
  (srcs.map (fun s => s.length)).sum

/-- Modelled from the spec: `ConcatView` (spec §4.4) — presents an ordered
sequence of sources as one logically contiguous sequence of total length
`sum of constituent lengths`.  An empty list of sources yields a zero-length
view, not an error. -/
def ConcatView.mk [Inhabited α] (srcs : List (IndexedSource α)) :
    IndexedSource α :=
  ⟨sumLengths srcs, concatGetItem srcs⟩

/-- Cumulative length of the first `k` constituent sources. -/
def prefixLen (srcs : List (IndexedSource α)) (k : Nat) : Nat :=
  sumLengths (srcs.take k)

/-- The zero-length source, used only as the out-of-range default of list
lookups in statements about `ConcatView`. -/
def emptySource (α : Type) [Inhabited α] : IndexedSource α :=
  ⟨0, fun _ => default⟩

/-- Modelled from the spec: the synthetic `IndexedSource` backing a pair of
parallel sequences (the x values and the y values), as used by the notebook
toy datasets. -/
def tensorSource (xs ys : List Int) : IndexedSource (Int × Int) :=
  ⟨xs.length, fun i => (xs.getD i 0, ys.getD i 0)⟩

/-- Modelled from the spec: an `AvalancheTensorDataset` over two parallel
sequences, seen as an `IndexedSource` — a `LabeledView` (default constant
zero label) over the synthetic source backed by the sequences (spec §4.2),
yielding items of shape `((x, y), t)`. -/
def avalancheTensorDataset (xs ys : List Int) :
    IndexedSource ((Int × Int) × Nat) :=
  labeledDefault (tensorSource xs ys)

/-! Concrete toy data from the notebook. -/

def xDataToy : List Int := [50, 51, 52, 53, 54, 55, 56, 57, 58, 59]

def yDataToy : List Int := [10, 11, 12, 13, 14, 15, 16, 17, 18, 19]

def toyDataset : IndexedSource ((Int × Int) × Nat) :=
  avalancheTensorDataset xDataToy yDataToy

def toySubsetIndices : List Int := [0, 5, 8, 2]

def toyDataset1 : IndexedSource ((Int × Int) × Nat) :=
  avalancheTensorDataset [50, 51, 52, 53, 54] [10, 11, 12, 13, 14]

def toyDataset2 : IndexedSource ((Int × Int) × Nat) :=
  avalancheTensorDataset [60, 61, 62, 63, 64] [20, 21, 22, 23, 24]

/-! Theorems. -/

/-- C1: for every IndexedSource `src`, every index list `idxs` whose values
all lie in `[0, src.length)`, and every `i < idxs.length`,
`SubsetView(src, idxs)` is successfully constructed, has length
`idxs.length`, and its `get i` equals `src.get (idxs[i])`. -/
theorem subsetView_spec (src : IndexedSource α) (idxs : List Int)
    (h : ∀ j ∈ idxs, 0 ≤ j ∧ j < (src.length : Int)) :
    ∃ v, SubsetView.mk? src idxs = .ok v ∧
      v.length = idxs.length ∧
      ∀ i, i < idxs.length → v.get i = src.get (idxs.getD i 0).toNat := by
  refine ⟨⟨idxs.length, fun i => src.getItem (idxs.getD i 0).toNat⟩,
    by simp [SubsetView.mk?]; exact h, rfl, ?_⟩
  intro i hi
  have hmem : idxs.getD i 0 ∈ idxs := by
    rw [List.getD_eq_getElem idxs 0 hi]
    exact List.getElem_mem hi
  have hb := h _ hmem
  have hlt : (idxs.getD i 0).toNat < src.length := by omega
  have hlt2 : (idxs[i]).toNat < src.length := by
    rwa [List.getD_eq_getElem idxs 0 hi] at hlt
  simp [IndexedSource.get, hi, hlt2]

/-- C1 witness: the toy scenario — `x = [50..59]`, `y = [10..19]`,
`SubsetView(toy, [0,5,8,2])` has length 4 and yields `((50,10),0)`,
`((55,15),0)`, `((58,18),0)`, `((52,12),0)` in that order. -/
theorem subsetView_spec_witness :
    (∀ j ∈ toySubsetIndices, 0 ≤ j ∧ j < (toyDataset.length : Int)) ∧
    ∃ v, SubsetView.mk? toyDataset toySubsetIndices = .ok v ∧
      v.length = 4 ∧
      v.get 0 = .ok ((50, 10), 0) ∧
      v.get 1 = .ok ((55, 15), 0) ∧
      v.get 2 = .ok ((58, 18), 0) ∧
      v.get 3 = .ok ((52, 12), 0) := by
  have h : ∀ j ∈ toySubsetIndices, 0 ≤ j ∧ j < (toyDataset.length : Int) := by
    decide
  obtain ⟨v, hv, hlen, hget⟩ := subsetView_spec toyDataset toySubsetIndices h
  refine ⟨h, v, hv, hlen, ?_, ?_, ?_, ?_⟩
  · rw [hget 0 (by decide)]; decide
  · rw [hget 1 (by decide)]; decide
  · rw [hget 2 (by decide)]; decide
  · rw [hget 3 (by decide)]; decide

/-- C3: for every IndexedSource `src` (and any explicit label sequence of
matching length, when one is given), the LabeledView is successfully
constructed and its `get i` returns exactly the fields of `src.get i`
extended with the appended label — `labels[i]` when an explicit sequence is
given, the constant zero when no labels are given. -/
theorem labeledView_spec (src : IndexedSource α) (labels : Option (List Nat))
    (h : ∀ ls, labels = some ls → ls.length = src.length) :
    ∃ v, LabeledView.mk? src labels = .ok v ∧
      ∀ i, v.get i =
        Except.map (fun a => (a, labelAt labels i)) (src.get i) := by
  cases labels with
  | none =>
      refine ⟨labeledDefault src, rfl, ?_⟩
      intro i
      by_cases hi : i < src.length <;>
        simp [IndexedSource.get, labeledDefault, labelAt, hi, Except.map]
  | some ls =>
      have hl := h ls rfl
      refine ⟨⟨src.length, fun i => (src.getItem i, ls.getD i 0)⟩,
        by simp [LabeledView.mk?, hl], ?_⟩
      intro i
      by_cases hi : i < src.length <;>
        simp [IndexedSource.get, labelAt, hi, Except.map]

/-- C3 witness: a LabeledView with explicit labels `[7, 8, 9]` over a
three-item source appends exactly those labels; item 1 is `((51, 11), 8)`. -/
theorem labeledView_spec_witness :
    (∀ ls, (some [7, 8, 9] : Option (List Nat)) = some ls →
        ls.length = (tensorSource [50, 51, 52] [10, 11, 12]).length) ∧
    ∃ v, LabeledView.mk? (tensorSource [50, 51, 52] [10, 11, 12])
        (some [7, 8, 9]) = .ok v ∧
      (∀ i, v.get i = Except.map (fun a => (a, labelAt (some [7, 8, 9]) i))
        ((tensorSource [50, 51, 52] [10, 11, 12]).get i)) ∧
      v.get 1 = .ok ((51, 11), 8) := by
  have h : ∀ ls, (some [7, 8, 9] : Option (List Nat)) = some ls →
      ls.length = (tensorSource [50, 51, 52] [10, 11, 12]).length := by
    intro ls hls
    cases hls
    rfl
  obtain ⟨v, hv, hg⟩ :=
    labeledView_spec (tensorSource [50, 51, 52] [10, 11, 12]) (some [7, 8, 9]) h
  refine ⟨h, v, hv, hg, ?_⟩
  rw [hg 1]
  rfl

/-- C6: the LabeledView length always equals the wrapped source length, and
constructing with an explicit label sequence of mismatched length fails with
`ConfigurationError` (no view produced). -/
theorem labeledView_length_spec (src : IndexedSource α) (ls : List Nat) :
    (∃ v, LabeledView.mk? src none = .ok v ∧ v.length = src.length) ∧
    (ls.length = src.length →
        ∃ v, LabeledView.mk? src (some ls) = .ok v ∧ v.length = src.length) ∧
    (ls.length ≠ src.length →
        LabeledView.mk? src (some ls) = .error .configurationError) := by
  refine ⟨⟨labeledDefault src, rfl, rfl⟩, ?_, ?_⟩
  · intro hl
    refine ⟨⟨src.length, fun i => (src.getItem i, ls.getD i 0)⟩, ?_, rfl⟩
    simp [LabeledView.mk?, hl]
  · intro hl
    simp [LabeledView.mk?, hl]

/-- C6 witness: over a three-item source, the default LabeledView has
length 3 while an explicit two-label sequence is rejected with
`ConfigurationError`. -/
theorem labeledView_length_spec_witness :
    ([1, 2] : List Nat).length ≠ (tensorSource [50, 51, 52] [10, 11, 12]).length ∧
    LabeledView.mk? (tensorSource [50, 51, 52] [10, 11, 12]) (some [1, 2]) =
      .error .configurationError ∧
    ∃ v, LabeledView.mk? (tensorSource [50, 51, 52] [10, 11, 12]) none =
        .ok v ∧ v.length = 3 := by
  refine ⟨by decide,
    (labeledView_length_spec (tensorSource [50, 51, 52] [10, 11, 12]) [1, 2]).2.2
      (by decide), ?_⟩
  obtain ⟨v, hv, hl⟩ :=
    (labeledView_length_spec (tensorSource [50, 51, 52] [10, 11, 12]) [1, 2]).1
  exact ⟨v, hv, hl⟩

/-- C4: constructing a SubsetView with any index value `< 0` or
`≥ src.length` fails with `IndexError` at construction time (no view is ever
produced), while all-in-range index lists construct successfully. -/
theorem subsetView_validation (src : IndexedSource α) (idxs : List Int) :
    ((∃ j ∈ idxs, j < 0 ∨ (src.length : Int) ≤ j) →
        SubsetView.mk? src idxs = .error .indexError) ∧
    ((∀ j ∈ idxs, 0 ≤ j ∧ j < (src.length : Int)) →
        ∃ v, SubsetView.mk? src idxs = .ok v) := by
  constructor
  · intro h
    have hno : ¬ ∀ j ∈ idxs, 0 ≤ j ∧ j < (src.length : Int) := by
      intro hall
      obtain ⟨j, hj, hbad⟩ := h
      have := hall j hj
      omega
    simp only [SubsetView.mk?]
    rw [if_neg hno]
  · intro h
    refine ⟨⟨idxs.length, fun i => src.getItem (idxs.getD i 0).toNat⟩, ?_⟩
    simp only [SubsetView.mk?]
    rw [if_pos h]

/-- C4 witness: over the ten-item toy dataset, index lists `[0, 12]` and
`[-1]` are rejected with `IndexError` at construction, while `[0, 5, 8, 2]`
constructs successfully. -/
theorem subsetView_validation_witness :
    (∃ j ∈ ([0, 12] : List Int), j < 0 ∨ (toyDataset.length : Int) ≤ j) ∧
    SubsetView.mk? toyDataset [0, 12] = .error .indexError ∧
    (∃ j ∈ ([-1] : List Int), j < 0 ∨ (toyDataset.length : Int) ≤ j) ∧
    SubsetView.mk? toyDataset [-1] = .error .indexError ∧
    ∃ v, SubsetView.mk? toyDataset [0, 5, 8, 2] = .ok v := by
  exact ⟨by decide, (subsetView_validation toyDataset [0, 12]).1 (by decide),
    by decide, (subsetView_validation toyDataset [-1]).1 (by decide),
    (subsetView_validation toyDataset [0, 5, 8, 2]).2 (by decide)⟩

theorem sumLengths_cons (s : IndexedSource α) (rest : List (IndexedSource α)) :
    sumLengths (s :: rest) = s.length + sumLengths rest := by
  simp [sumLengths]

theorem prefixLen_cons_succ (s : IndexedSource α)
    (rest : List (IndexedSource α)) (k : Nat) :
    prefixLen (s :: rest) (k + 1) = s.length + prefixLen rest k := by
  simp [prefixLen, sumLengths]

theorem prefixLen_add_le [Inhabited α] (srcs : List (IndexedSource α)) (k : Nat)
    (hk : k < srcs.length) :
    prefixLen srcs k + (srcs.getD k (emptySource α)).length ≤ sumLengths srcs := by
  induction srcs generalizing k with
  | nil => simp at hk
  | cons s rest ih =>
      cases k with
      | zero => simp [prefixLen, sumLengths]
      | succ k =>
          have hk2 : k < rest.length := by simpa using hk
          have := ih k hk2
          rw [prefixLen_cons_succ, sumLengths_cons, List.getD_cons_succ]
          omega

theorem concatGetItem_eq [Inhabited α] (srcs : List (IndexedSource α))
    (k i : Nat) (hk : k < srcs.length)
    (h1 : prefixLen srcs k ≤ i)
    (h2 : i < prefixLen srcs k + (srcs.getD k (emptySource α)).length) :
    concatGetItem srcs i =
      (srcs.getD k (emptySource α)).getItem (i - prefixLen srcs k) := by
  induction srcs generalizing k i with
  | nil => simp at hk
  | cons s rest ih =>
      cases k with
      | zero =>
          have hp : prefixLen (s :: rest) 0 = 0 := by simp [prefixLen, sumLengths]
          rw [hp] at h2
          have hi : i < s.length := by simpa using h2
          simp [concatGetItem, hi, hp]
      | succ k =>
          have hk2 : k < rest.length := by simpa using hk
          rw [prefixLen_cons_succ] at h1 h2
          have hge : s.length ≤ i := le_trans (Nat.le_add_right _ _) h1
          have hni : ¬ i < s.length := by omega
          rw [List.getD_cons_succ] at h2 ⊢
          have h1r : prefixLen rest k ≤ i - s.length := by omega
          have h2r : i - s.length <
              prefixLen rest k + (rest.getD k (emptySource α)).length := by omega
          have := ih k (i - s.length) hk2 h1r h2r
          rw [prefixLen_cons_succ]
          simp only [concatGetItem, if_neg hni]
          rw [this]
          congr 1
          omega

/-- C2: the concatenation of sources `s1..sn` has length `sum Li`, and every
global index `i` with `prefixLen k ≤ i < prefixLen k + Lk` (half-open
boundary intervals) resolves to constituent `k` at local offset
`i - prefixLen k`: `get i = s_k.get (i - prefixLen k)`. -/
theorem concatView_spec [Inhabited α] (srcs : List (IndexedSource α)) :
    (ConcatView.mk srcs).length = sumLengths srcs ∧
    ∀ k i, k < srcs.length →
      prefixLen srcs k ≤ i →
      i < prefixLen srcs k + (srcs.getD k (emptySource α)).length →
      (ConcatView.mk srcs).get i =
        (srcs.getD k (emptySource α)).get (i - prefixLen srcs k) := by
  refine ⟨rfl, ?_⟩
  intro k i hk h1 h2
  have htot : i < sumLengths srcs :=
    lt_of_lt_of_le h2 (prefixLen_add_le srcs k hk)
  have hloc : i - prefixLen srcs k < (srcs.getD k (emptySource α)).length := by
    omega
  have hitem := concatGetItem_eq srcs k i hk h1 h2
  simp only [ConcatView.mk, IndexedSource.get, htot, if_true, hloc, hitem]

/-- C2 witness: the two-source scenario — A with items `(50,10)..(54,14)`,
B with items `(60,20)..(64,24)` — concatenates to length 10; global index 4
returns A's last item `((54,14),0)` and global index 5 returns B's first item
`((60,20),0)`. -/
theorem concatView_spec_witness :
    (ConcatView.mk [toyDataset1, toyDataset2]).length = 10 ∧
    (ConcatView.mk [toyDataset1, toyDataset2]).get 4 =
      ([toyDataset1, toyDataset2].getD 0
        (emptySource ((Int × Int) × Nat))).get (4 - prefixLen [toyDataset1, toyDataset2] 0) ∧
    (ConcatView.mk [toyDataset1, toyDataset2]).get 5 =
      ([toyDataset1, toyDataset2].getD 1
        (emptySource ((Int × Int) × Nat))).get (5 - prefixLen [toyDataset1, toyDataset2] 1) ∧
    toyDataset1.get 4 = .ok ((54, 14), 0) ∧
    toyDataset2.get 0 = .ok ((60, 20), 0) ∧
    (4 - prefixLen [toyDataset1, toyDataset2] 0 = 4 ∧
      5 - prefixLen [toyDataset1, toyDataset2] 1 = 0) := by
  refine ⟨?_, ?_, ?_, by decide, by decide, by decide, by decide⟩
  · exact (concatView_spec [toyDataset1, toyDataset2]).1
  · exact (concatView_spec [toyDataset1, toyDataset2]).2 0 4
      (by decide) (by decide) (by decide)
  · exact (concatView_spec [toyDataset1, toyDataset2]).2 1 5
      (by decide) (by decide) (by decide)

/-- C7: the concatenation of an empty list of sources is successfully
constructed as a zero-length view, and `get i` fails with `IndexError` for
every index `i`. -/
theorem concatView_empty (α : Type) [Inhabited α] :
    (ConcatView.mk ([] : List (IndexedSource α))).length = 0 ∧
    ∀ i, (ConcatView.mk ([] : List (IndexedSource α))).get i =
      .error .indexError := by
  refine ⟨rfl, ?_⟩
  intro i
  simp [ConcatView.mk, IndexedSource.get, sumLengths]

/-- C7 witness: over item type `Nat`, the empty concatenation has length 0
and `get 7` fails with `IndexError`. -/
theorem concatView_empty_witness :
    (ConcatView.mk ([] : List (IndexedSource Nat))).length = 0 ∧
    (ConcatView.mk ([] : List (IndexedSource Nat))).get 7 =
      .error .indexError :=
  ⟨(concatView_empty Nat).1, (concatView_empty Nat).2 7⟩

/-- Modelled from the spec: the label-source selection of a TensorView —
the default (second input sequence), an explicit label sequence, or an
integer selecting which input sequence to use as labels (spec §4.2). -/
inductive TargetsSpec where
  | defaultTargets
  | explicitSeq (ts : List Int)
  | tensorIdx (k : Nat)

/-- Modelled from the spec: a TensorView holds the parallel input sequences
together with the targets sequence selected at construction time. -/
structure TensorView where
  seqs : List (List Int)
  targets : List Int
deriving DecidableEq

/-- All input sequences are parallel, i.e. of equal length. -/
abbrev allSameLength (seqs : List (List Int)) : Prop :=
  ∀ s ∈ seqs, s.length = (seqs.headD []).length

/-- Modelled from the spec: TensorView construction (spec §4.2).  The input
sequences must all have equal length, else the construction fails with
`ConfigurationError`; the targets sequence defaults to the second input
sequence unless overridden by an explicit label sequence (whose length must
match) or by an integer selecting another input sequence. -/
def TensorView.mk? (seqs : List (List Int)) (tspec : TargetsSpec) :
    Except ViewError TensorView :=
  match tspec with
  | .defaultTargets =>
      if allSameLength seqs then .ok ⟨seqs, seqs.getD 1 []⟩
      else .error .configurationError
  | .explicitSeq ts =>
      if allSameLength seqs then
        if ts.length = (seqs.headD []).length then .ok ⟨seqs, ts⟩
        else .error .configurationError
      else .error .configurationError
  | .tensorIdx k =>
      if allSameLength seqs then .ok ⟨seqs, seqs.getD k []⟩
      else .error .configurationError

/-- C5: a TensorView over two or more parallel equal-length sequences uses
the second input sequence as its targets by default, unless overridden by an
explicit label sequence or by an integer selecting another input sequence;
sequences of unequal lengths are rejected with `ConfigurationError`. -/
theorem tensorView_targets_spec (seqs : List (List Int)) :
    (2 ≤ seqs.length → allSameLength seqs →
        TensorView.mk? seqs .defaultTargets = .ok ⟨seqs, seqs.getD 1 []⟩ ∧
        (∀ ts : List Int, ts.length = (seqs.headD []).length →
            TensorView.mk? seqs (.explicitSeq ts) = .ok ⟨seqs, ts⟩) ∧
        ∀ k, TensorView.mk? seqs (.tensorIdx k) = .ok ⟨seqs, seqs.getD k []⟩) ∧
    (¬ allSameLength seqs →
        ∀ tspec, TensorView.mk? seqs tspec = .error .configurationError) := by
  constructor
  · intro _ hall
    refine ⟨?_, ?_, ?_⟩
    · simp only [TensorView.mk?]
      rw [if_pos hall]
    · intro ts hts
      simp only [TensorView.mk?]
      rw [if_pos hall, if_pos hts]
    · intro k
      simp only [TensorView.mk?]
      rw [if_pos hall]
  · intro hno tspec
    cases tspec <;> simp only [TensorView.mk?] <;> rw [if_neg hno]

/-- C5 witness: over the parallel sequences `[50,51,52]` and `[10,11,12]`
the default targets are exactly the second sequence `[10,11,12]`, while the
unequal-length pair `[50,51,52]`, `[10,11]` is rejected with
`ConfigurationError`. -/
theorem tensorView_targets_spec_witness :
    2 ≤ ([[(50 : Int), 51, 52], [10, 11, 12]] : List (List Int)).length ∧
    allSameLength [[(50 : Int), 51, 52], [10, 11, 12]] ∧
    TensorView.mk? [[(50 : Int), 51, 52], [10, 11, 12]] .defaultTargets =
      .ok ⟨[[50, 51, 52], [10, 11, 12]], [10, 11, 12]⟩ ∧
    ¬ allSameLength [[(50 : Int), 51, 52], [10, 11]] ∧
    TensorView.mk? [[(50 : Int), 51, 52], [10, 11]] .defaultTargets =
      .error .configurationError := by
  refine ⟨by decide, by decide, ?_, by decide, ?_⟩
  · exact ((tensorView_targets_spec [[(50 : Int), 51, 52], [10, 11, 12]]).1
      (by decide) (by decide)).1
  · exact (tensorView_targets_spec [[(50 : Int), 51, 52], [10, 11]]).2
      (by decide) .defaultTargets

/-- Modelled from the spec: the observable read operations of a view —
`length()` and `get(i)`; no write path exists (spec §5). -/
inductive ViewOp where
  | lengthOp
  | getOp (i : Nat)

/-- Observed result of a single read operation. -/
inductive OpResult (α : Type) where
  | lengthRes (n : Nat)
  | itemRes (r : Except ViewError α)
deriving DecidableEq

/-- Modelled from the spec: one read operation on a view returns the view
state paired with the observed result — pure read transformations, no
method mutates state (spec §5). -/
def runOp (v : IndexedSource α) : ViewOp → IndexedSource α × OpResult α
  | .lengthOp => (v, .lengthRes v.length)
  | .getOp i => (v, .itemRes (v.get i))

/-- Running a sequence of read operations, threading the view state and
collecting the observed results. -/
def runOps (v : IndexedSource α) :
    List ViewOp → IndexedSource α × List (OpResult α)
  | [] => (v, [])
  | op :: rest =>
      let p := runOp v op
      let q := runOps p.fst rest
      (q.fst, p.snd :: q.snd)

theorem runOps_fst (v : IndexedSource α) (ops : List ViewOp) :
    (runOps v ops).fst = v := by
  induction ops generalizing v with
  | nil => rfl
  | cons op rest ih => cases op <;> simp [runOps, runOp, ih]

/-- C8: views are immutable after construction — after any sequence of read
operations the view state is identical to the initial state; in particular
its length, and the observed result of a `length()` call, are the same every
time over the view's lifetime. -/
theorem view_immutable (v : IndexedSource α) (ops : List ViewOp) :
    (runOps v ops).fst = v ∧
    (runOps v ops).fst.length = v.length ∧
    (runOp (runOps v ops).fst .lengthOp).snd = (runOp v .lengthOp).snd := by
  refine ⟨runOps_fst v ops, ?_, ?_⟩ <;> rw [runOps_fst]

/-- C8 witness: the toy ten-item dataset is unchanged by a concrete
sequence of get/length operations, and its length stays 10. -/
theorem view_immutable_witness :
    (runOps toyDataset
      [ViewOp.getOp 0, ViewOp.lengthOp, ViewOp.getOp 9, ViewOp.getOp 3]).fst =
        toyDataset ∧
    (runOps toyDataset
      [ViewOp.getOp 0, ViewOp.lengthOp, ViewOp.getOp 9, ViewOp.getOp 3]).fst.length =
        toyDataset.length ∧
    (runOp (runOps toyDataset
      [ViewOp.getOp 0, ViewOp.lengthOp, ViewOp.getOp 9, ViewOp.getOp 3]).fst
        ViewOp.lengthOp).snd = (runOp toyDataset ViewOp.lengthOp).snd :=
  view_immutable toyDataset
    [ViewOp.getOp 0, ViewOp.lengthOp, ViewOp.getOp 9, ViewOp.getOp 3]

/-- C9: reads are deterministic and non-interfering — the result of
`get i` is unchanged by any other read operations performed in between, so
two evaluations of `v.get i` always return equal results. -/
theorem view_reads_deterministic (v : IndexedSource α) (i : Nat)
    (ops : List ViewOp) :
    (runOps v ops).fst.get i = v.get i ∧
    (runOp (runOps v ops).fst (.getOp i)).snd = (runOp v (.getOp i)).snd := by
  constructor <;> rw [runOps_fst]

/-- C9 witness: on the toy dataset, `get 5` observed before and after a
concrete interleaving of other get calls gives the same result. -/
theorem view_reads_deterministic_witness :
    (runOps toyDataset
      [ViewOp.getOp 1, ViewOp.getOp 5, ViewOp.getOp 7]).fst.get 5 =
        toyDataset.get 5 ∧
    (runOp (runOps toyDataset
      [ViewOp.getOp 1, ViewOp.getOp 5, ViewOp.getOp 7]).fst
        (ViewOp.getOp 5)).snd = (runOp toyDataset (ViewOp.getOp 5)).snd :=
  view_reads_deterministic toyDataset 5
    [ViewOp.getOp 1, ViewOp.getOp 5, ViewOp.getOp 7]

/-- Modelled from the spec: iteration over a view in the Python sequence
protocol — call `get 0`, `get 1`, ... in order and stop at the first
`IndexError`; the fuel argument bounds the number of calls and `iterate`
supplies enough fuel to exhaust the view. -/
def iterAux (v : IndexedSource α) : Nat → Nat → List α
  | 0, _ => []
  | fuel + 1, i =>
      match v.get i with
      | .ok a => a :: iterAux v fuel (i + 1)
      | .error _ => []

/-- Iterating a view from index 0. -/
def iterate (v : IndexedSource α) : List α :=
  iterAux v v.length 0

theorem iterAux_eq (v : IndexedSource α) (fuel i : Nat)
    (h : v.length ≤ i + fuel) :
    iterAux v fuel i = (List.range' i (v.length - i)).map v.getItem := by
  induction fuel generalizing i with
  | zero =>
      have h0 : v.length - i = 0 := by omega
      simp [iterAux, h0]
  | succ fuel ih =>
      by_cases hi : i < v.length
      · have hget : v.get i = .ok (v.getItem i) := by
          simp [IndexedSource.get, hi]
        have h2 : v.length ≤ (i + 1) + fuel := by omega
        have hrange : v.length - i = (v.length - (i + 1)) + 1 := by omega
        simp only [iterAux, hget]
        rw [hrange, List.range'_succ, List.map_cons, ih (i + 1) h2]
      · have hget : v.get i = .error .indexError := by
          simp [IndexedSource.get, hi]
        have h0 : v.length - i = 0 := by omega
        simp [iterAux, hget, h0]

/-- C10: iterating any view yields exactly `get 0, get 1, ...,
get (length - 1)` — `length` items in increasing index order; concretely,
the 4-element toy subset view yields its 4 items in subset-index order and
the 10-element toy concatenation yields its 10 items in global-index
order. -/
theorem iterate_spec :
    (∀ (α : Type) (v : IndexedSource α),
        iterate v = (List.range v.length).map v.getItem) ∧
    Except.map iterate (SubsetView.mk? toyDataset toySubsetIndices) =
      .ok [((50, 10), 0), ((55, 15), 0), ((58, 18), 0), ((52, 12), 0)] ∧
    iterate (ConcatView.mk [toyDataset1, toyDataset2]) =
      [((50, 10), 0), ((51, 11), 0), ((52, 12), 0), ((53, 13), 0),
       ((54, 14), 0), ((60, 20), 0), ((61, 21), 0), ((62, 22), 0),
       ((63, 23), 0), ((64, 24), 0)] := by
  refine ⟨?_, by decide, by decide⟩
  intro α v
  rw [List.range_eq_range']
  simpa using iterAux_eq v v.length 0 (by omega)

end Avalanche
